import Mathlib

/-!
Verification of the webhook intake pipeline of `src/app.py`
(SuperSpeedySolutions payment API).

The embedding follows the source: module-level startup (lines 17-22) and the
`stripe_webhook` Flask view (lines 154-186). The signature-verification
algorithm itself lives in `stripe.Webhook.construct_event` (the Stripe SDK,
not part of this repository), so it is modelled from the spec, section 4.1.
-/

set_option autoImplicit false

namespace PaymentApi

/-- A request body as received on the wire: one entry per byte. -/
abbrev Bytes := List Nat

/-- The inbound `Stripe-Signature` header, as `construct_event` sees it:
absent (`request.headers.get` returned `None`), present but not parseable
into a timestamp and a `v1` value, or parsed into a timestamp `t` and a
claimed MAC value `v1`. -/
inductive SigHeader where
  | missing : SigHeader
  | malformed : SigHeader
  | sig (t : Nat) (v1 : Bytes) : SigHeader
deriving DecidableEq

/-- One inbound webhook request: the raw body bytes (`request.get_data()`)
and the signature header. -/
structure Request where
  body : Bytes
  sigHeader : SigHeader
deriving DecidableEq

/-- The process environment variables the pipeline reads:
`STRIPE_SECRET_KEY` (line 17) and `STRIPE_WEBHOOK_SECRET` (line 160).
`none` models an unset variable; `os.getenv` then returns `None`. -/
structure Env where
  STRIPE_SECRET_KEY : Option String
  STRIPE_WEBHOOK_SECRET : Option String
deriving DecidableEq

/-- Module initialization, lines 17-22 of `src/app.py`: read
`STRIPE_SECRET_KEY`; if it is unset or empty (both falsy in Python),
raise `ValueError("Stripe configuration missing")` so the module never
finishes loading and no endpoint is served. -/
def startup (env : Env) : Except String Unit :=
  match env.STRIPE_SECRET_KEY with
  | none => .error "Stripe configuration missing"
  | some k => if k = "" then .error "Stripe configuration missing" else .ok ()

/-- Modelled from the spec: the keyed message authentication code of
section 4.1 (HMAC-SHA256 inside `stripe.Webhook.construct_event`, whose
implementation is not part of this repository). It is modelled as an ideal
MAC: a keyed encoding injective in the message for a fixed secret, which is
the collision-freeness the spec assumes of the real MAC. -/
def hmacSha256 (secret : String) (msg : Bytes) : Bytes :=
  (secret.toList.map Char.toNat) ++ 0 :: msg

/-- Modelled from the spec: the signing payload of the Stripe scheme, the
decimal timestamp and the raw body joined by a dot (byte 46). -/
def signedPayload (t : Nat) (rawBody : Bytes) : Bytes :=
  ((Nat.repr t).toList.map Char.toNat) ++ 46 :: rawBody

/-- The verification-failure variants of spec section 4.1. -/
inductive VerificationError where
  | MissingSignature : VerificationError
  | MalformedSignature : VerificationError
  | SignatureMismatch : VerificationError
  | Expired : VerificationError
deriving DecidableEq

/-- The per-variant exception text, visible only in internal logs. -/
def errText : VerificationError → String
  | .MissingSignature => "missing Stripe-Signature header"
  | .MalformedSignature => "unable to extract timestamp and signatures from header"
  | .SignatureMismatch => "no signatures found matching the expected signature for payload"
  | .Expired => "timestamp outside the tolerance zone"

/-- The clock-skew tolerance `construct_event` applies by default:
300 seconds (the spec's five-minute window). -/
def DEFAULT_TOLERANCE : Nat := 300

/-- Modelled from the spec: the signature-verification half of
`stripe.Webhook.construct_event` (line 167 calls it; the implementation is
not in this repository). A missing or unparseable header is rejected; then
the MAC computed over the timestamped raw body is compared with the claimed
value; then a timestamp older than the tolerance window is rejected as
expired. -/
def verifySignature (payload : Bytes) (header : SigHeader) (secret : String)
    (now tolerance : Nat) : Except VerificationError Unit :=
  match header with
  | .missing => .error .MissingSignature
  | .malformed => .error .MalformedSignature
  | .sig t v1 =>
    if v1 = hmacSha256 secret (signedPayload t payload) then
      if t + tolerance < now then .error .Expired else .ok ()
    else .error .SignatureMismatch

/-- The typed event decoded from a verified body. `type` and `id` are the
event tag and processor-assigned id; `objId` models
`event['data']['object']['id']`, the only payload field the handlers read
(lines 171-172 and 176-177); `none` models a missing key, on which the
handler body raises `KeyError`. -/
structure Event where
  type : String
  id : String
  objId : Option String
deriving DecidableEq

/-- The two JSON bodies the webhook endpoint can produce:
`jsonify({'received': True})` (lines 164 and 182) and
`jsonify({'error': 'Webhook failed'})` (line 186). -/
inductive RespBody where
  | receivedTrue : RespBody
  | webhookFailed : RespBody
deriving DecidableEq

/-- Instrumentation of one request: which computations ran and on which
bytes. `verifyRan b ok` records that signature verification was computed
over bytes `b` with outcome `ok`; `parseRan b` that the body `b` was parsed
into the typed event structure; `handleRan k` that the handler branch for
event kind `k` was entered. -/
inductive Act where
  | verifyRan (b : Bytes) (ok : Bool) : Act
  | parseRan (b : Bytes) : Act
  | handleRan (kind : String) : Act
deriving DecidableEq

/-- What one call of the webhook view produces, besides state: the HTTP
status, the JSON body, the instrumentation trace and the log lines emitted. -/
structure CoreResult where
  status : Nat
  body : RespBody
  trace : List Act
  logs : List String
deriving DecidableEq

/-- Whether some handler branch was entered during the request. -/
def handlerInvoked (c : CoreResult) : Bool :=
  c.trace.any fun a => match a with | .handleRan _ => true | _ => false

/-- Whether the body was parsed into a typed event during the request. -/
def eventParsed (c : CoreResult) : Bool :=
  c.trace.any fun a => match a with | .parseRan _ => true | _ => false

/-- Embedding of the `stripe_webhook` view, `src/app.py` lines 154-186.

`parse` stands for the JSON-decoding half of `construct_event`
(`json.loads` on the verified raw body); `none` models a decoding
exception, which the view's catch-all turns into a 400.

The branches, in source order: line 162 returns `{'received': True}` when
`STRIPE_WEBHOOK_SECRET` is unset or empty (both falsy); line 167 verifies
the signature, any raised verification error reaching the catch-all at line
184 (status 400, generic body); lines 170-180 dispatch on `event['type']`,
where the two known handler bodies read `...['object']['id']` (a missing
key raises `KeyError`, again caught at line 184) and only log; line 182
acknowledges with `{'received': True}`. -/
def webhookCore (parse : Bytes → Option Event) (env : Env) (now : Nat)
    (req : Request) : CoreResult :=
  let payload := req.body
  match env.STRIPE_WEBHOOK_SECRET with
  | none =>
    { status := 200, body := .receivedTrue, trace := [],
      logs := ["Webhook received but no webhook secret configured"] }
  | some secret =>
    if secret = "" then
      { status := 200, body := .receivedTrue, trace := [],
        logs := ["Webhook received but no webhook secret configured"] }
    else
      match verifySignature payload req.sigHeader secret now DEFAULT_TOLERANCE with
      | .error e =>
        { status := 400, body := .webhookFailed,
          trace := [.verifyRan payload false],
          logs := ["Webhook error: " ++ errText e] }
      | .ok _ =>
        match parse payload with
        | none =>
          { status := 400, body := .webhookFailed,
            trace := [.verifyRan payload true, .parseRan payload],
            logs := ["Webhook error: invalid payload"] }
        | some event =>
          if event.type = "checkout.session.completed" then
            match event.objId with
            | none =>
              { status := 400, body := .webhookFailed,
                trace := [.verifyRan payload true, .parseRan payload,
                          .handleRan event.type],
                logs := ["Webhook error: KeyError"] }
            | some sid =>
              { status := 200, body := .receivedTrue,
                trace := [.verifyRan payload true, .parseRan payload,
                          .handleRan event.type],
                logs := ["Payment completed for session " ++ sid] }
          else if event.type = "customer.subscription.created" then
            match event.objId with
            | none =>
              { status := 400, body := .webhookFailed,
                trace := [.verifyRan payload true, .parseRan payload,
                          .handleRan event.type],
                logs := ["Webhook error: KeyError"] }
            | some sid =>
              { status := 200, body := .receivedTrue,
                trace := [.verifyRan payload true, .parseRan payload,
                          .handleRan event.type],
                logs := ["Subscription created: " ++ sid] }
          else
            { status := 200, body := .receivedTrue,
              trace := [.verifyRan payload true, .parseRan payload],
              logs := ["Unhandled event type: " ++ event.type] }

/-- Observable state outside one request: the log stream (every
`logger.info` and `logger.error` appends to it) and the External Record
Updater's record store. The handler bodies in `src/app.py` only log —
the database update is left as a comment (line 173) — so no code path
writes `records`. -/
structure ServerState where
  logLines : List String
  records : List (String × String)
deriving DecidableEq

/-- The full stateful pipeline: one webhook request processed against a
server state, returning the response data and the new state. -/
def stripe_webhook (parse : Bytes → Option Event) (env : Env) (now : Nat)
    (req : Request) (st : ServerState) : CoreResult × ServerState :=
  (webhookCore parse env now req,
   { logLines := st.logLines ++ (webhookCore parse env now req).logs,
     records := st.records })

/-! Concrete fixtures used to evaluate the pipeline at specific inputs. -/

/-- A decoder that always fails (stands for a body `json.loads` rejects). -/
def parse0 : Bytes → Option Event := fun _ => none

/-- A decoder producing a known-kind event whose payload lacks the object
id key, so its handler body raises `KeyError`. -/
def badObjParse : Bytes → Option Event := fun _ =>
  some { type := "checkout.session.completed", id := "evt_1", objId := none }

/-- A decoder producing a well-formed checkout-completed event. -/
def goodParse : Bytes → Option Event := fun _ =>
  some { type := "checkout.session.completed", id := "evt_1", objId := some "cs_1" }

/-- A decoder producing an event of a kind with no registered handler. -/
def unknownKindParse : Bytes → Option Event := fun _ =>
  some { type := "invoice.paid", id := "evt_2", objId := some "in_1" }

/-- Environment with the webhook shared secret unset. -/
def noSecretEnv : Env :=
  { STRIPE_SECRET_KEY := some "sk_live_x", STRIPE_WEBHOOK_SECRET := none }

/-- Environment with both the API key and the webhook secret configured. -/
def whEnv : Env :=
  { STRIPE_SECRET_KEY := some "sk_live_x", STRIPE_WEBHOOK_SECRET := some "whsec_x" }

/-- A request with no signature header. -/
def unsignedReq : Request := { body := [123, 125], sigHeader := .missing }

/-- A request correctly signed with the `whEnv` secret at timestamp 100. -/
def signedReq : Request :=
  { body := [123, 125],
    sigHeader := .sig 100 (hmacSha256 "whsec_x" (signedPayload 100 [123, 125])) }

/-- A request whose claimed MAC value does not match its body. -/
def mismatchReq : Request := { body := [123, 125], sigHeader := .sig 100 [9, 9, 9] }

/-- The empty server state. -/
def st0 : ServerState := { logLines := [], records := [] }

/-! Theorems settling the claims. -/

/-- C1: evaluation of the code at the failing input. With
`STRIPE_WEBHOOK_SECRET` unset, an unsigned request is acknowledged with
status 200 and the received-true body, and neither verification, parsing
nor any handler runs: the code accepts the notification unverified instead
of failing closed, so the claim does not hold of the code. -/
theorem C1_missing_secret_accepts_unverified :
    (webhookCore parse0 noSecretEnv 0 unsignedReq).status = 200 ∧
    (webhookCore parse0 noSecretEnv 0 unsignedReq).body = .receivedTrue ∧
    (webhookCore parse0 noSecretEnv 0 unsignedReq).trace = [] := by
  decide

/-- C2: every request that fails signature verification (missing,
malformed, mismatched or expired signature) is answered 400, never has its
body parsed into a typed event, and never reaches any handler. -/
theorem C2_failed_verification_never_reaches_handler
    (parse : Bytes → Option Event) (env : Env) (now : Nat) (req : Request)
    (secret : String) (e : VerificationError)
    (hsec : env.STRIPE_WEBHOOK_SECRET = some secret) (hne : secret ≠ "")
    (hv : verifySignature req.body req.sigHeader secret now DEFAULT_TOLERANCE
            = .error e) :
    (webhookCore parse env now req).status = 400 ∧
    eventParsed (webhookCore parse env now req) = false ∧
    handlerInvoked (webhookCore parse env now req) = false := by
  simp [webhookCore, hsec, hne, hv, eventParsed, handlerInvoked]

/-- C2 witness: a concrete request with no signature header, against a
configured secret, is rejected with 400 and no parse or handler runs. -/
theorem C2_witness_concrete :
    (webhookCore parse0 whEnv 0 unsignedReq).status = 400 ∧
    eventParsed (webhookCore parse0 whEnv 0 unsignedReq) = false ∧
    handlerInvoked (webhookCore parse0 whEnv 0 unsignedReq) = false :=
  C2_failed_verification_never_reaches_handler parse0 whEnv 0 unsignedReq
    "whsec_x" .MissingSignature rfl (by decide) rfl

/-- C4: every successfully verified event whose kind is neither
checkout.session.completed nor customer.subscription.created is
acknowledged with 200 and the received-true body, and no handler runs. -/
theorem C4_unknown_kind_acknowledged
    (parse : Bytes → Option Event) (env : Env) (now : Nat) (req : Request)
    (secret : String) (event : Event)
    (hsec : env.STRIPE_WEBHOOK_SECRET = some secret) (hne : secret ≠ "")
    (hv : verifySignature req.body req.sigHeader secret now DEFAULT_TOLERANCE
            = .ok ())
    (hp : parse req.body = some event)
    (hk1 : event.type ≠ "checkout.session.completed")
    (hk2 : event.type ≠ "customer.subscription.created") :
    (webhookCore parse env now req).status = 200 ∧
    (webhookCore parse env now req).body = .receivedTrue ∧
    handlerInvoked (webhookCore parse env now req) = false := by
  simp [webhookCore, hsec, hne, hv, hp, hk1, hk2, handlerInvoked]

/-- C4 witness: a correctly signed request decoding to kind invoice.paid is
acknowledged and no handler runs. -/
theorem C4_witness_concrete :
    (webhookCore unknownKindParse whEnv 100 signedReq).status = 200 ∧
    (webhookCore unknownKindParse whEnv 100 signedReq).body = .receivedTrue ∧
    handlerInvoked (webhookCore unknownKindParse whEnv 100 signedReq) = false :=
  C4_unknown_kind_acknowledged unknownKindParse whEnv 100 signedReq
    "whsec_x" { type := "invoice.paid", id := "evt_2", objId := some "in_1" }
    rfl (by decide) rfl rfl (by decide) (by decide)

/-- C5: any two requests that fail verification, for whatever distinct
reasons, receive the identical caller-visible response: the same status and
the same body, namely 400 with the generic webhook-failed body. -/
theorem C5_uniform_rejection_response
    (parse1 parse2 : Bytes → Option Event) (env1 env2 : Env)
    (now1 now2 : Nat) (req1 req2 : Request) (s1 s2 : String)
    (e1 e2 : VerificationError)
    (hs1 : env1.STRIPE_WEBHOOK_SECRET = some s1) (hn1 : s1 ≠ "")
    (hv1 : verifySignature req1.body req1.sigHeader s1 now1 DEFAULT_TOLERANCE
             = .error e1)
    (hs2 : env2.STRIPE_WEBHOOK_SECRET = some s2) (hn2 : s2 ≠ "")
    (hv2 : verifySignature req2.body req2.sigHeader s2 now2 DEFAULT_TOLERANCE
             = .error e2) :
    (webhookCore parse1 env1 now1 req1).status
      = (webhookCore parse2 env2 now2 req2).status ∧
    (webhookCore parse1 env1 now1 req1).body
      = (webhookCore parse2 env2 now2 req2).body ∧
    (webhookCore parse1 env1 now1 req1).status = 400 ∧
    (webhookCore parse1 env1 now1 req1).body = .webhookFailed := by
  simp [webhookCore, hs1, hn1, hv1, hs2, hn2, hv2]

/-- C5 witness: a missing-signature request and a mismatched-signature
request receive the identical 400 response with the generic body. -/
theorem C5_witness_concrete :
    (webhookCore parse0 whEnv 100 unsignedReq).status
      = (webhookCore goodParse whEnv 100 mismatchReq).status ∧
    (webhookCore parse0 whEnv 100 unsignedReq).body
      = (webhookCore goodParse whEnv 100 mismatchReq).body ∧
    (webhookCore parse0 whEnv 100 unsignedReq).status = 400 ∧
    (webhookCore parse0 whEnv 100 unsignedReq).body = .webhookFailed :=
  C5_uniform_rejection_response parse0 goodParse whEnv whEnv 100 100
    unsignedReq mismatchReq "whsec_x" "whsec_x"
    .MissingSignature .SignatureMismatch
    rfl (by decide) rfl rfl (by decide) rfl

/-- C3 counterexample: a correctly signed request whose verified event
reaches the checkout-completed handler, where the handler fails, is
answered 400 — not 500 — by the catch-all at line 184, so the claim as
stated is false of the code. -/
theorem C3_counterexample_handler_failure_gets_400 :
    handlerInvoked (webhookCore badObjParse whEnv 100 signedReq) = true ∧
    (webhookCore badObjParse whEnv 100 signedReq).status = 400 ∧
    (webhookCore badObjParse whEnv 100 signedReq).status ≠ 500 := by
  decide

/-- C3 amended: every verified event whose handler fails is answered with
HTTP 400 and the generic webhook-failed body — a non-2xx status, so the
processor still redelivers, but it is 400, not 500, and in particular not
an acknowledgment. -/
theorem C3_handler_failure_returns_400
    (parse : Bytes → Option Event) (env : Env) (now : Nat) (req : Request)
    (secret : String) (event : Event)
    (hsec : env.STRIPE_WEBHOOK_SECRET = some secret) (hne : secret ≠ "")
    (hv : verifySignature req.body req.sigHeader secret now DEFAULT_TOLERANCE
            = .ok ())
    (hp : parse req.body = some event)
    (hk : event.type = "checkout.session.completed" ∨
          event.type = "customer.subscription.created")
    (ho : event.objId = none) :
    (webhookCore parse env now req).status = 400 ∧
    (webhookCore parse env now req).body = .webhookFailed ∧
    handlerInvoked (webhookCore parse env now req) = true := by
  rcases hk with hk | hk <;>
    simp [webhookCore, hsec, hne, hv, hp, hk, ho, handlerInvoked]

/-- C3 witness: concrete instance of the amended claim, the same failing
handler input as the counterexample. -/
theorem C3_witness_concrete :
    (webhookCore badObjParse whEnv 100 signedReq).status = 400 ∧
    (webhookCore badObjParse whEnv 100 signedReq).body = .webhookFailed ∧
    handlerInvoked (webhookCore badObjParse whEnv 100 signedReq) = true :=
  C3_handler_failure_returns_400 badObjParse whEnv 100 signedReq "whsec_x"
    { type := "checkout.session.completed", id := "evt_1", objId := none }
    rfl (by decide) rfl rfl (Or.inl rfl) rfl

/-- C6: signature verification is always computed over exactly the raw
request body bytes, and the body is parsed into the typed event structure
only when verification of those same raw bytes has succeeded. -/
theorem C6_verify_raw_body_and_parse_only_after
    (parse : Bytes → Option Event) (env : Env) (now : Nat) (req : Request) :
    (∀ b ok, Act.verifyRan b ok ∈ (webhookCore parse env now req).trace →
       b = req.body) ∧
    (∀ b, Act.parseRan b ∈ (webhookCore parse env now req).trace →
       b = req.body ∧
       verifySignature req.body req.sigHeader
         (env.STRIPE_WEBHOOK_SECRET.getD "") now DEFAULT_TOLERANCE = .ok ()) := by
  constructor
  · intro b ok hmem
    simp only [webhookCore] at hmem
    repeat' split at hmem
    all_goals simp_all
  · intro b hmem
    simp only [webhookCore] at hmem
    repeat' split at hmem
    all_goals simp_all

/-- C6 witness: on a concrete correctly signed request whose body is
parsed, the parsed bytes are the raw body and verification of the raw body
succeeded. -/
theorem C6_witness_concrete :
    signedReq.body = signedReq.body ∧
    verifySignature signedReq.body signedReq.sigHeader
      (whEnv.STRIPE_WEBHOOK_SECRET.getD "") 100 DEFAULT_TOLERANCE = .ok () :=
  (C6_verify_raw_body_and_parse_only_after goodParse whEnv 100 signedReq).2
    signedReq.body (by decide)

/-- C7: a signature whose timestamp component is older than the tolerance
window is rejected as Expired even though the MAC computed over the
timestamped raw body matches the claimed value. -/
theorem C7_stale_timestamp_rejected_as_expired
    (payload : Bytes) (secret : String) (t now : Nat)
    (hold : t + DEFAULT_TOLERANCE < now) :
    verifySignature payload
      (.sig t (hmacSha256 secret (signedPayload t payload)))
      secret now DEFAULT_TOLERANCE = .error .Expired := by
  simp [verifySignature, hold]

/-- C7 witness: a matching MAC with timestamp 0, checked at time 1000,
is rejected as Expired. -/
theorem C7_witness_concrete :
    verifySignature [123, 125]
      (.sig 0 (hmacSha256 "whsec_x" (signedPayload 0 [123, 125])))
      "whsec_x" 1000 DEFAULT_TOLERANCE = .error .Expired :=
  C7_stale_timestamp_rejected_as_expired [123, 125] "whsec_x" 0 1000 (by decide)

/-- The modelled MAC is injective in the message for a fixed secret. -/
theorem hmacSha256_injOn (secret : String) {m1 m2 : Bytes}
    (h : hmacSha256 secret m1 = hmacSha256 secret m2) : m1 = m2 := by
  unfold hmacSha256 at h
  simpa using h

/-- The signing payload is injective in the raw body for a fixed
timestamp. -/
theorem signedPayload_injOn (t : Nat) {b1 b2 : Bytes}
    (h : signedPayload t b1 = signedPayload t b2) : b1 = b2 := by
  unfold signedPayload at h
  simpa using h

/-- Flip bit `k` of the byte at position `i` of a byte string. -/
def flipBit (b : Bytes) (i k : Nat) : Bytes :=
  b.set i ((b.getD i 0) ^^^ 2 ^ k)

/-- Flipping a bit of a byte within bounds changes the byte string. -/
theorem flipBit_ne (b : Bytes) (i k : Nat) (hi : i < b.length) :
    flipBit b i k ≠ b := by
  intro h
  have hx : (b.set i ((b.getD i 0) ^^^ 2 ^ k))[i]? = b[i]? := by
    unfold flipBit at h; rw [h]
  rw [List.getElem?_set_eq_of_lt _ hi, List.getElem?_eq_getElem hi] at hx
  have hxv : b.getD i 0 ^^^ 2 ^ k = b[i] := Option.some.inj hx
  have hxi : b.getD i 0 = b[i] := List.getD_eq_getElem b 0 hi
  rw [hxi] at hxv
  have h0 : b[i] ^^^ 2 ^ k = b[i] ^^^ 0 := by rw [Nat.xor_zero]; exact hxv
  have h2 : (2 : Nat) ^ k = 0 := Nat.xor_right_injective h0
  exact (pow_pos (by norm_num : (0 : Nat) < 2) k).ne' h2

/-- C8: a signature computed correctly over the raw body with the secret
verifies successfully (within the tolerance window), and after flipping
any single bit of any body byte the same signature no longer verifies:
the result is a signature mismatch. -/
theorem C8_correct_signature_verifies_and_bit_flip_fails
    (rawBody : Bytes) (secret : String) (t now i k : Nat)
    (hi : i < rawBody.length) (_hk : k < 8)
    (hfresh : ¬ t + DEFAULT_TOLERANCE < now) :
    verifySignature rawBody
      (.sig t (hmacSha256 secret (signedPayload t rawBody)))
      secret now DEFAULT_TOLERANCE = .ok () ∧
    verifySignature (flipBit rawBody i k)
      (.sig t (hmacSha256 secret (signedPayload t rawBody)))
      secret now DEFAULT_TOLERANCE = .error .SignatureMismatch := by
  constructor
  · simp [verifySignature, hfresh]
  · have hne2 : hmacSha256 secret (signedPayload t rawBody)
        ≠ hmacSha256 secret (signedPayload t (flipBit rawBody i k)) := by
      intro h
      exact flipBit_ne rawBody i k hi
        (signedPayload_injOn t (hmacSha256_injOn secret h)).symm
    simp [verifySignature, hne2]

/-- C8 witness: the concrete body with bytes 7 and 8, correctly signed,
verifies, and flipping the lowest bit of its first byte makes the same
signature fail as a mismatch. -/
theorem C8_witness_concrete :
    verifySignature [7, 8]
      (.sig 100 (hmacSha256 "whsec_x" (signedPayload 100 [7, 8])))
      "whsec_x" 100 DEFAULT_TOLERANCE = .ok () ∧
    verifySignature (flipBit [7, 8] 0 0)
      (.sig 100 (hmacSha256 "whsec_x" (signedPayload 100 [7, 8])))
      "whsec_x" 100 DEFAULT_TOLERANCE = .error .SignatureMismatch :=
  C8_correct_signature_verifies_and_bit_flip_fails [7, 8] "whsec_x" 100 100 0 0
    (by decide) (by decide) (by decide)

/-- C9: running the full pipeline a second time on an identical request,
after a first application that was acknowledged, acknowledges again and
leaves the record store exactly as it was before the first application:
the handler bodies only log, so replay is a no-op on records. -/
theorem C9_replay_is_noop_on_records
    (parse : Bytes → Option Event) (env : Env) (now : Nat) (req : Request)
    (st : ServerState)
    (h1 : (stripe_webhook parse env now req st).1.status = 200 ∧
          (stripe_webhook parse env now req st).1.body = .receivedTrue) :
    (stripe_webhook parse env now req
        (stripe_webhook parse env now req st).2).1.status = 200 ∧
    (stripe_webhook parse env now req
        (stripe_webhook parse env now req st).2).1.body = .receivedTrue ∧
    (stripe_webhook parse env now req
        (stripe_webhook parse env now req st).2).2.records = st.records :=
  ⟨h1.1, h1.2, rfl⟩

/-- C9 witness: a concrete correctly signed checkout event, applied twice
from the empty state, is acknowledged both times and the record store is
unchanged. -/
theorem C9_witness_concrete :
    (stripe_webhook goodParse whEnv 100 signedReq
        (stripe_webhook goodParse whEnv 100 signedReq st0).2).1.status = 200 ∧
    (stripe_webhook goodParse whEnv 100 signedReq
        (stripe_webhook goodParse whEnv 100 signedReq st0).2).1.body
      = .receivedTrue ∧
    (stripe_webhook goodParse whEnv 100 signedReq
        (stripe_webhook goodParse whEnv 100 signedReq st0).2).2.records
      = st0.records :=
  C9_replay_is_noop_on_records goodParse whEnv 100 signedReq st0
    ⟨by decide, by decide⟩

/-- C10: module initialization raises exactly when STRIPE_SECRET_KEY is
unset or empty — the ValueError with message Stripe configuration missing
prevents the module from loading — and succeeds for any non-empty key; its
outcome never depends on STRIPE_WEBHOOK_SECRET, which the webhook view
reads per request instead. -/
theorem C10_startup_fails_closed_on_api_key_only (env : Env) :
    ((env.STRIPE_SECRET_KEY = none ∨ env.STRIPE_SECRET_KEY = some "") →
       startup env = .error "Stripe configuration missing") ∧
    (∀ k, env.STRIPE_SECRET_KEY = some k → k ≠ "" →
       startup env = .ok ()) ∧
    (∀ w, startup { env with STRIPE_WEBHOOK_SECRET := w } = startup env) := by
  refine ⟨?_, ?_, ?_⟩
  · rintro (h | h) <;> simp [startup, h]
  · intro k hk hne
    simp [startup, hk, hne]
  · intro w
    rfl

/-- C10 witness: startup fails with no API key even when the webhook
secret is set, and succeeds with an API key even when the webhook secret
is unset. -/
theorem C10_witness_concrete :
    startup { STRIPE_SECRET_KEY := none, STRIPE_WEBHOOK_SECRET := some "whsec_x" }
      = .error "Stripe configuration missing" ∧
    startup noSecretEnv = .ok () :=
  ⟨(C10_startup_fails_closed_on_api_key_only
      { STRIPE_SECRET_KEY := none, STRIPE_WEBHOOK_SECRET := some "whsec_x" }).1
      (Or.inl rfl),
   (C10_startup_fails_closed_on_api_key_only noSecretEnv).2.1 "sk_live_x"
      rfl (by decide)⟩

end PaymentApi
